import Mathlib

/-!
Verification of the Speech Keyboard backend core: the transcription and
correction pipeline (`transcriptController.transcribeAndCorrect`), the
OpenAI adapter's text rewrite (`OpenAIService.processText`), and the
balance ledger (`SubscriptionService` over the `Subscription` model).
External collaborators (HTTP layer, OpenAI backend, PostgreSQL) are
modelled as explicit parameters: the backend's reply and the store's
outcome are inputs, and the controller's observable behaviour (response,
calls issued, record persisted) is returned as a trace.
-/

namespace SpeechKeyboard

/-- JavaScript truthiness for an optional string: `undefined` and the empty
string are falsy (`!v` in the source). -/
def jsFalsy (v : Option String) : Bool :=
  match v with
  | none => true
  | some s => s = ""

/-- JavaScript `v || d` on an optional string: returns `d` when `v` is
`undefined` or the empty string, else the string itself. -/
def jsOrString (v : Option String) (d : String) : String :=
  match v with
  | none => d
  | some s => if s = "" then d else s

/-! ## OpenAI adapter (`src/services/OpenAIService.ts`) -/

/-- The fixed default prompt from the `OpenAIService` constructor
(`this.defaultPrompt`). -/
def defaultPrompt : String :=
  "You are a writing assistant. When given a raw transcript, correct any grammatical errors, punctuation, and make the phrasing clear and professional without altering the original meaning. Maintain the speaker's tone and intent. Only return the corrected text, no additional commentary."

/-- The content of the chat completion returned by the backend, abstracted
at the case split `processText` performs on it: `choices[0]?.message?.content`
may be absent (the code then throws "No response content from OpenAI"),
`JSON.parse(content)` may throw (carrying the parse error's message), or it
yields an object whose `corrected` field is present or absent. -/
inductive ChatContent where
  | missing : ChatContent
  | unparseable (msg : String) : ChatContent
  | parsed (corrected : Option String) : ChatContent

/-- Outcome of the `openai.chat.completions.create` call: the call itself may
throw (the error message after the adapter's `handleError` normalisation), or
it returns a completion whose content is a `ChatContent`. -/
inductive ChatOutcome where
  | apiError (errMsg : String) : ChatOutcome
  | ok (content : ChatContent) : ChatOutcome

/-- `TextProcessingResult` from `src/interfaces` (part of the repository's
interface files): `success`, optional `processedText`, `originalText`,
optional `promptUsed` and `error`.  Metadata (tokens, timing, model) is not
observable by any property and is omitted. -/
structure TextProcessingResult where
  success : Bool
  processedText : Option String
  originalText : String
  promptUsed : Option String
  error : Option String
deriving DecidableEq, Repr

/-- `OpenAIService.processText`: builds `userPrompt = input.prompt || ''`,
calls the chat backend, and on a returned completion parses the JSON content
and takes `json.corrected || input.rawText` as the processed text, reporting
`promptUsed = userPrompt || this.defaultPrompt`; a missing content field, a
parse error, or a thrown API call all land in the catch block, which reports
`success: false` with the normalised error and no `processedText`. -/
def processText (rawText : String) (prompt : Option String) (outcome : ChatOutcome) :
    TextProcessingResult :=
  let userPrompt := (prompt.getD "")
  match outcome with
  | .apiError e =>
      { success := false, processedText := none, originalText := rawText,
        promptUsed := none, error := some e }
  | .ok .missing =>
      { success := false, processedText := none, originalText := rawText,
        promptUsed := none, error := some "No response content from OpenAI" }
  | .ok (.unparseable msg) =>
      { success := false, processedText := none, originalText := rawText,
        promptUsed := none, error := some msg }
  | .ok (.parsed corrected) =>
      { success := true,
        processedText := some (jsOrString corrected rawText),
        originalText := rawText,
        promptUsed := some (jsOrString (some userPrompt) defaultPrompt),
        error := none }

/-! ## Controller (`src/controllers/transcriptController.ts`) -/

/-- `req.file` produced by multer: buffer, original name, MIME type. -/
structure AudioFile where
  buffer : List Nat
  originalname : String
  mimetype : String
deriving DecidableEq, Repr

/-- The request body's claim-relevant fields: `prompt` and `user_id`. -/
structure RequestBody where
  prompt : Option String
  user_id : Option String
deriving DecidableEq, Repr

/-- An inbound request: optional uploaded file plus body. -/
structure PipelineRequest where
  file : Option AudioFile
  body : RequestBody
deriving DecidableEq, Repr

/-- `TranscriptionResult` from `src/interfaces/TranscriptionProvider.ts`
(metadata omitted; duration kept abstract as a natural number of
hundredths of seconds — its value only passes through). -/
structure TranscriptionResult where
  success : Bool
  transcript : Option String
  duration : Option Nat
  error : Option String
deriving DecidableEq, Repr

/-- `CreateTranscriptData` from `src/models/Transcript.ts`.  The source
applies `parseInt(user_id)`; the numeric decoding is not observable by any
property, so the field keeps the string the controller received. -/
structure CreateTranscriptData where
  user_id : Option String
  audio_url : Option String
  duration_secs : Option Nat
  text_raw : Option String
  text_final : Option String
  prompt_used : Option String
deriving DecidableEq, Repr

/-- Outcome of the `Transcript.create` call against the store: a saved row
with its id, or a thrown database error. -/
inductive DbOutcome where
  | ok (id : Nat) : DbOutcome
  | fail (err : String) : DbOutcome
deriving DecidableEq, Repr

/-- The `data` object of a JSON response; absent fields are `none`/`false`
exactly as an absent property in the source's object literals. -/
structure ResponseData where
  transcriptId : Option Nat := none
  rawTranscript : Option String := none
  finalText : Option String := none
  duration : Option Nat := none
  promptUsed : Option String := none
  correctionFailed : Bool := false
  correctionError : Option String := none
deriving DecidableEq, Repr

/-- The JSON response rendered by the controller. -/
structure HttpResponse where
  status : Nat
  success : Bool
  message : Option String := none
  error : Option String := none
  data : Option ResponseData := none
deriving DecidableEq, Repr

/-- A ledger mutation issued to the `Subscription` model (the controller
issues none; the subscription controller issues these). -/
inductive LedgerOp where
  | debit (minutes : Int) : LedgerOp
  | credit (minutes : Int) : LedgerOp
deriving DecidableEq, Repr

/-- Observable behaviour of one `transcribeAndCorrect` run: the rendered
response, which collaborators were invoked, the record handed to
`Transcript.create`, the record durably stored (none when the store threw
or create was never reached), and the ledger mutations issued. -/
structure PipelineTrace where
  response : HttpResponse
  transcribeCalled : Bool
  processTextCalled : Bool
  createCalled : Bool
  createdRecord : Option CreateTranscriptData
  persisted : Option CreateTranscriptData
  savedId : Option Nat
  ledgerCalls : List LedgerOp
deriving DecidableEq, Repr

/-- `transcribeAndCorrect` (lines 43–139 of the controller): reject a
missing file (400), reject a falsy `user_id` (400), call the transcription
provider, stop with 422 "Transcription failed" on provider failure, else
call the text processor, build the transcript record (`text_final` and
`prompt_used` depending on correction success), attempt `Transcript.create`
inside a try/catch that swallows store errors, and render either the
degraded (correctionFailed) or the full-success 200 response, with
`transcriptId := savedTranscript?.id`.  The controller never touches the
subscription ledger, so every trace carries `ledgerCalls = []`. -/
def transcribeAndCorrect (req : PipelineRequest) (tr : TranscriptionResult)
    (cr : TextProcessingResult) (db : DbOutcome) : PipelineTrace :=
  match req.file with
  | none =>
      { response := { status := 400, success := false,
                      message := some "No audio file provided" },
        transcribeCalled := false, processTextCalled := false,
        createCalled := false, createdRecord := none, persisted := none,
        savedId := none, ledgerCalls := [] }
  | some _ =>
      if jsFalsy req.body.user_id then
        { response := { status := 400, success := false,
                        message := some "User ID is required" },
          transcribeCalled := false, processTextCalled := false,
          createCalled := false, createdRecord := none, persisted := none,
          savedId := none, ledgerCalls := [] }
      else if tr.success = false then
        { response := { status := 422, success := false,
                        message := some "Transcription failed",
                        error := tr.error },
          transcribeCalled := true, processTextCalled := false,
          createCalled := false, createdRecord := none, persisted := none,
          savedId := none, ledgerCalls := [] }
      else
        let transcriptData : CreateTranscriptData :=
          { user_id := req.body.user_id,
            audio_url := none,
            duration_secs := tr.duration,
            text_raw := tr.transcript,
            text_final := if cr.success then cr.processedText else tr.transcript,
            prompt_used := if cr.success then cr.promptUsed
                           else some (jsOrString req.body.prompt "default") }
        let saved : Option Nat := match db with | .ok i => some i | .fail _ => none
        let stored : Option CreateTranscriptData :=
          match db with | .ok _ => some transcriptData | .fail _ => none
        if cr.success = false then
          { response := { status := 200, success := true,
                          data := some { transcriptId := saved,
                                         rawTranscript := tr.transcript,
                                         finalText := tr.transcript,
                                         duration := tr.duration,
                                         correctionFailed := true,
                                         correctionError := cr.error } },
            transcribeCalled := true, processTextCalled := true,
            createCalled := true, createdRecord := some transcriptData,
            persisted := stored, savedId := saved, ledgerCalls := [] }
        else
          { response := { status := 200, success := true,
                          data := some { transcriptId := saved,
                                         rawTranscript := tr.transcript,
                                         finalText := cr.processedText,
                                         duration := tr.duration,
                                         promptUsed := cr.promptUsed } },
            transcribeCalled := true, processTextCalled := true,
            createCalled := true, createdRecord := some transcriptData,
            persisted := stored, savedId := saved, ledgerCalls := [] }

/-! ## Balance ledger (`src/models/Subscription.ts`,
`src/services/SubscriptionService.ts`) -/

/-- A calendar date at day granularity, months numbered 0–11 as in
JavaScript's `Date`.  `expiry_date` is a SQL `DATE`, and the service's
comparison `new Date(expiry_date) <= new Date()` distinguishes dates at
exactly this granularity. -/
structure SDate where
  year : Int
  month : Nat
  day : Nat
deriving DecidableEq, Repr

/-- Calendar order on `SDate` (the order induced by the timestamp
comparison in the source). -/
def SDate.le (a b : SDate) : Bool :=
  if a.year ≠ b.year then decide (a.year < b.year)
  else if a.month ≠ b.month then decide (a.month < b.month)
  else decide (a.day ≤ b.day)

/-- `SubscriptionService.getNextMonthFirstDay`:
`new Date(now.getFullYear(), now.getMonth() + 1, 1)`, with JavaScript's
month-overflow normalisation (month 12 rolls into January of the next
year). -/
def getNextMonthFirstDay (now : SDate) : SDate :=
  if now.month + 1 ≥ 12 then { year := now.year + 1, month := 0, day := 1 }
  else { year := now.year, month := now.month + 1, day := 1 }

/-- The subscription tier (`status VARCHAR` restricted by the model's types
to `'free' | 'premium'`). -/
inductive SubStatus where
  | free : SubStatus
  | premium : SubStatus
deriving DecidableEq, Repr

/-- A row of the `subscriptions` table (one per user; `subscribe_date` and
the row id are not observable by any property). -/
structure SubscriptionRow where
  user_id : Nat
  status : SubStatus
  balance : Int
  expiry_date : Option SDate
deriving DecidableEq, Repr

/-- `Subscription.deductBalance`: the single SQL statement
`UPDATE subscriptions SET balance = balance - $2 WHERE user_id = $1
RETURNING *`, applied to the user's row (`none` when the user has no
ledger row, matching `result.rows[0] || null`).  No floor is enforced. -/
def Subscription.deductBalance (row : Option SubscriptionRow) (minutes : Int) :
    Option SubscriptionRow :=
  row.map fun s => { s with balance := s.balance - minutes }

/-- `Subscription.addBalance`: the single SQL statement
`UPDATE subscriptions SET balance = balance + $2 WHERE user_id = $1
RETURNING *`. -/
def Subscription.addBalance (row : Option SubscriptionRow) (minutes : Int) :
    Option SubscriptionRow :=
  row.map fun s => { s with balance := s.balance + minutes }

/-- `SubscriptionService.deductBalance`: throws `'Failed to deduct balance'`
when the model update found no row. -/
def SubscriptionService.deductBalance (row : Option SubscriptionRow) (minutes : Int) :
    Except String SubscriptionRow :=
  match Subscription.deductBalance row minutes with
  | none => .error "Failed to deduct balance"
  | some s => .ok s

/-- `SubscriptionService.resetMonthlyBalance`: throws when the user has no
ledger row; when `expiry_date` exists and is on or before the current date,
adds the tier allowance (`status === 'free' ? 10 : 1000`) to the existing
balance and sets `expiry_date` to the first day of the next month
(via `Subscription.update`, which leaves the other columns unchanged);
otherwise changes nothing. -/
def SubscriptionService.resetMonthlyBalance (now : SDate)
    (sub : Option SubscriptionRow) : Except String SubscriptionRow :=
  match sub with
  | none => .error "Subscription not found"
  | some s =>
      match s.expiry_date with
      | some e =>
          if SDate.le e now then
            .ok { s with
                  balance := s.balance + (if s.status = SubStatus.free then 10 else 1000),
                  expiry_date := some (getNextMonthFirstDay now) }
          else .ok s
      | none => .ok s

/-- `SubscriptionService.upgradeToPremium`: throws when the user has no
ledger row; otherwise sets `status := 'premium'`, adds the premium
allowance 1000 to the existing balance, and sets `expiry_date` to the
first day of the next month. -/
def SubscriptionService.upgradeToPremium (now : SDate)
    (sub : Option SubscriptionRow) : Except String SubscriptionRow :=
  match sub with
  | none => .error "Subscription not found"
  | some s =>
      .ok { s with status := SubStatus.premium,
                   balance := s.balance + 1000,
                   expiry_date := some (getNextMonthFirstDay now) }

/-- One atomic storage-layer step: each ledger mutation in the source is a
single SQL `UPDATE` statement, which the database executes atomically, so a
concurrent history of such statements against one row is a sequence of
these steps in some serialisation order. -/
def applyLedgerOp (row : Option SubscriptionRow) (op : LedgerOp) :
    Option SubscriptionRow :=
  match op with
  | .debit m => Subscription.deductBalance row m
  | .credit m => Subscription.addBalance row m

/-- Run a serialisation of atomic ledger statements against a row. -/
def runSchedule (row : Option SubscriptionRow) (ops : List LedgerOp) :
    Option SubscriptionRow :=
  ops.foldl applyLedgerOp row

/-! ## Helper lemmas -/

/-- The first day of the next month is strictly after the current date. -/
lemma nextMonth_not_le (now : SDate) :
    SDate.le (getNextMonthFirstDay now) now = false := by
  rcases now with ⟨y, m, d⟩
  unfold getNextMonthFirstDay SDate.le
  by_cases h : m + 1 ≥ 12 <;> simp [h]

/-- Folding `N` atomic debits of `m` minutes over a present ledger row
subtracts `N * m` from its balance. -/
lemma runSchedule_replicate_debit (N : Nat) (m : Int) (s : SubscriptionRow) :
    runSchedule (some s) (List.replicate N (LedgerOp.debit m)) =
      some { s with balance := s.balance - N * m } := by
  induction N generalizing s with
  | zero => simp [runSchedule]
  | succ n ih =>
      rw [List.replicate_succ]
      have h1 : runSchedule (some s) (LedgerOp.debit m :: List.replicate n (LedgerOp.debit m))
          = runSchedule (some { s with balance := s.balance - m })
              (List.replicate n (LedgerOp.debit m)) := rfl
      rw [h1, ih]
      simp only [Option.some.injEq, SubscriptionRow.mk.injEq, true_and, and_true]
      push_cast
      ring

/-! ## Claims -/

/-- C1: for every request whose speech-to-text stage fails, the pipeline
stops: no Transcript record is persisted, the balance ledger is not
modified, the rewrite stage is never invoked, and the caller receives a
failure response (`success: false`) with the message "Transcription failed"
and the provider's error. -/
theorem transcription_failure_stops_pipeline
    (req : PipelineRequest) (f : AudioFile) (tr : TranscriptionResult)
    (cr : TextProcessingResult) (db : DbOutcome)
    (hf : req.file = some f) (hu : jsFalsy req.body.user_id = false)
    (htr : tr.success = false) :
    (transcribeAndCorrect req tr cr db).response =
      { status := 422, success := false,
        message := some "Transcription failed", error := tr.error, data := none }
    ∧ (transcribeAndCorrect req tr cr db).processTextCalled = false
    ∧ (transcribeAndCorrect req tr cr db).createCalled = false
    ∧ (transcribeAndCorrect req tr cr db).persisted = none
    ∧ (transcribeAndCorrect req tr cr db).ledgerCalls = [] := by
  simp [transcribeAndCorrect, hf, hu, htr]

/-- C1 witness: a concrete failing transcription yields the terminal
failure trace. -/
theorem transcription_failure_stops_pipeline_witness :
    (transcribeAndCorrect
        { file := some ⟨[0], "a.wav", "audio/wav"⟩,
          body := { prompt := none, user_id := some "7" } }
        { success := false, transcript := none, duration := none,
          error := some "OpenAI API quota exceeded. Please check your billing." }
        { success := true, processedText := none, originalText := "",
          promptUsed := none, error := none }
        (DbOutcome.ok 1)).response =
      { status := 422, success := false,
        message := some "Transcription failed",
        error := some "OpenAI API quota exceeded. Please check your billing.",
        data := none } := by
  have h := transcription_failure_stops_pipeline
    { file := some ⟨[0], "a.wav", "audio/wav"⟩,
      body := { prompt := none, user_id := some "7" } }
    ⟨[0], "a.wav", "audio/wav"⟩
    { success := false, transcript := none, duration := none,
      error := some "OpenAI API quota exceeded. Please check your billing." }
    { success := true, processedText := none, originalText := "",
      promptUsed := none, error := none }
    (DbOutcome.ok 1) rfl (by decide) rfl
  exact h.1

/-- C2: for every request where transcription succeeds but the rewrite
stage fails (and the store accepts the insert), a Transcript is persisted
with `text_final` equal to `text_raw`, and the response is `success: true`
with `finalText` equal to the raw transcript, `correctionFailed: true`,
and the rewrite error attached. -/
theorem rewrite_failure_degrades
    (req : PipelineRequest) (f : AudioFile) (tr : TranscriptionResult)
    (cr : TextProcessingResult) (db : DbOutcome) (i : Nat) (rawText : String)
    (hf : req.file = some f) (hu : jsFalsy req.body.user_id = false)
    (htr : tr.success = true) (ht : tr.transcript = some rawText)
    (hcr : cr.success = false) (hdb : db = DbOutcome.ok i) :
    ((transcribeAndCorrect req tr cr db).persisted.map
        CreateTranscriptData.text_final) = some (some rawText)
    ∧ ((transcribeAndCorrect req tr cr db).persisted.map
        CreateTranscriptData.text_raw) = some (some rawText)
    ∧ (transcribeAndCorrect req tr cr db).response.status = 200
    ∧ (transcribeAndCorrect req tr cr db).response.success = true
    ∧ ((transcribeAndCorrect req tr cr db).response.data.map
        ResponseData.finalText) = some (some rawText)
    ∧ ((transcribeAndCorrect req tr cr db).response.data.map
        ResponseData.rawTranscript) = some (some rawText)
    ∧ ((transcribeAndCorrect req tr cr db).response.data.map
        ResponseData.correctionFailed) = some true
    ∧ ((transcribeAndCorrect req tr cr db).response.data.map
        ResponseData.correctionError) = some cr.error := by
  simp [transcribeAndCorrect, hf, hu, htr, ht, hcr, hdb]

/-- C2 witness: a concrete degraded run persists the raw text as final
text and reports the correction failure. -/
theorem rewrite_failure_degrades_witness :
    ((transcribeAndCorrect
        { file := some ⟨[0], "a.wav", "audio/wav"⟩,
          body := { prompt := none, user_id := some "7" } }
        { success := true, transcript := some "hello world",
          duration := some 520, error := none }
        { success := false, processedText := none, originalText := "hello world",
          promptUsed := none, error := some "OpenAI API rate limit exceeded. Please try again later." }
        (DbOutcome.ok 3)).persisted.map CreateTranscriptData.text_final) =
      some (some "hello world") := by
  have h := rewrite_failure_degrades
    { file := some ⟨[0], "a.wav", "audio/wav"⟩,
      body := { prompt := none, user_id := some "7" } }
    ⟨[0], "a.wav", "audio/wav"⟩
    { success := true, transcript := some "hello world",
      duration := some 520, error := none }
    { success := false, processedText := none, originalText := "hello world",
      promptUsed := none, error := some "OpenAI API rate limit exceeded. Please try again later." }
    (DbOutcome.ok 3) 3 "hello world" rfl (by decide) rfl rfl rfl rfl
  exact h.1

/-- C3: for every request where both transcription and rewrite succeed (the
backend's reply parses), the persisted Transcript's `text_final` equals the
rewriter's output (`processedText`) and `prompt_used` equals the guidance
actually applied — the caller-supplied style guidance when a non-empty one
was given, and the fixed default prompt text when none was supplied — and
the same `promptUsed` value is returned in the response. -/
theorem rewrite_success_persists
    (req : PipelineRequest) (f : AudioFile) (tr : TranscriptionResult)
    (db : DbOutcome) (i : Nat) (rawText : String) (c : Option String)
    (hf : req.file = some f) (hu : jsFalsy req.body.user_id = false)
    (htr : tr.success = true) (ht : tr.transcript = some rawText)
    (hdb : db = DbOutcome.ok i) :
    let cr := processText rawText req.body.prompt (ChatOutcome.ok (ChatContent.parsed c))
    ((transcribeAndCorrect req tr cr db).persisted.map
        CreateTranscriptData.text_final) = some cr.processedText
    ∧ ((transcribeAndCorrect req tr cr db).persisted.map
        CreateTranscriptData.prompt_used) = some cr.promptUsed
    ∧ ((transcribeAndCorrect req tr cr db).response.data.map
        ResponseData.finalText) = some cr.processedText
    ∧ ((transcribeAndCorrect req tr cr db).response.data.map
        ResponseData.promptUsed) = some cr.promptUsed
    ∧ (∀ p, req.body.prompt = some p → p ≠ "" → cr.promptUsed = some p)
    ∧ (req.body.prompt = none → cr.promptUsed = some defaultPrompt) := by
  refine ⟨?_, ?_, ?_, ?_, ?_, ?_⟩
  · simp [transcribeAndCorrect, hf, hu, htr, hdb, processText]
  · simp [transcribeAndCorrect, hf, hu, htr, hdb, processText]
  · simp [transcribeAndCorrect, hf, hu, htr, hdb, processText]
  · simp [transcribeAndCorrect, hf, hu, htr, hdb, processText]
  · intro p hp hne
    simp [processText, hp, jsOrString, hne]
  · intro hp
    simp [processText, hp, jsOrString]

/-- C3 witness: with transcription succeeding, the backend returning a
parsed correction, and a non-empty caller prompt, the caller's guidance is
the prompt used, and the persisted final text is the rewriter's output. -/
theorem rewrite_success_persists_witness :
    ((transcribeAndCorrect
        { file := some ⟨[0], "a.wav", "audio/wav"⟩,
          body := { prompt := some "Make this sound professional", user_id := some "7" } }
        { success := true, transcript := some "um hello", duration := some 520, error := none }
        (processText "um hello" (some "Make this sound professional")
          (ChatOutcome.ok (ChatContent.parsed (some "Hello."))))
        (DbOutcome.ok 3)).persisted.map CreateTranscriptData.prompt_used) =
      some (some "Make this sound professional") := by
  have h := rewrite_success_persists
    { file := some ⟨[0], "a.wav", "audio/wav"⟩,
      body := { prompt := some "Make this sound professional", user_id := some "7" } }
    ⟨[0], "a.wav", "audio/wav"⟩
    { success := true, transcript := some "um hello", duration := some 520, error := none }
    (DbOutcome.ok 3) 3 "um hello" (some "Hello.") rfl (by decide) rfl rfl rfl
  have h2 := h.2.2.2.2.1 "Make this sound professional" rfl (by decide)
  rw [h.2.1, h2]

/-- C8 counterexample: the claim asserts that on a parsed reply lacking the
`corrected` field the adapter both returns the raw text as processed output
and reports `success: false`; on that input the code reports
`success: true`, so the claimed conjunction is false. -/
theorem adapter_dual_behavior_refuted :
    ¬ ((processText "hello world" none (ChatOutcome.ok (ChatContent.parsed none))).success = false
       ∧ (processText "hello world" none (ChatOutcome.ok (ChatContent.parsed none))).processedText
           = some "hello world") := by
  intro h
  exact absurd h.1 (by decide)

/-- C8 amended: when the parsed reply lacks the `corrected` field, the
adapter returns the raw text as the processed output with `success: true`
(a trivial success); when the reply cannot be parsed it reports
`success: false` with no processed text; the raw-text fallback and the
failure report occur on disjoint calls, never together. -/
theorem adapter_fallback_disjoint (raw : String) (prompt : Option String) (msg : String) :
    ((processText raw prompt (ChatOutcome.ok (ChatContent.parsed none))).success = true
     ∧ (processText raw prompt (ChatOutcome.ok (ChatContent.parsed none))).processedText = some raw)
    ∧ ((processText raw prompt (ChatOutcome.ok (ChatContent.unparseable msg))).success = false
     ∧ (processText raw prompt (ChatOutcome.ok (ChatContent.unparseable msg))).processedText = none) := by
  exact ⟨⟨rfl, rfl⟩, ⟨rfl, rfl⟩⟩

/-- C9: as implemented, a request carrying an audio file but no user
identifier is rejected with 400 "User ID is required" before any provider
call — the pipeline does not proceed to speech-to-text, contradicting the
claim (and the repository's own controller tests, which invoke the flow
with an empty body and expect the providers to be called). -/
theorem missing_user_id_rejected (tr : TranscriptionResult)
    (cr : TextProcessingResult) (db : DbOutcome) :
    (transcribeAndCorrect
        { file := some ⟨[0], "test.wav", "audio/wav"⟩,
          body := { prompt := none, user_id := none } } tr cr db).response =
      { status := 400, success := false,
        message := some "User ID is required", error := none, data := none }
    ∧ (transcribeAndCorrect
        { file := some ⟨[0], "test.wav", "audio/wav"⟩,
          body := { prompt := none, user_id := none } } tr cr db).transcribeCalled = false
    ∧ (transcribeAndCorrect
        { file := some ⟨[0], "test.wav", "audio/wav"⟩,
          body := { prompt := none, user_id := none } } tr cr db).persisted = none := by
  simp [transcribeAndCorrect, jsFalsy]

/-- C10: for every request where transcription succeeds but the store
throws on `Transcript.create`, the controller still returns HTTP 200 with
`success: true` and the transcription data, and the returned
`transcriptId` is undefined — nothing was durably stored. -/
theorem persistence_failure_still_succeeds
    (req : PipelineRequest) (f : AudioFile) (tr : TranscriptionResult)
    (cr : TextProcessingResult) (err : String)
    (hf : req.file = some f) (hu : jsFalsy req.body.user_id = false)
    (htr : tr.success = true) :
    (transcribeAndCorrect req tr cr (DbOutcome.fail err)).response.status = 200
    ∧ (transcribeAndCorrect req tr cr (DbOutcome.fail err)).response.success = true
    ∧ ((transcribeAndCorrect req tr cr (DbOutcome.fail err)).response.data.map
        ResponseData.transcriptId) = some none
    ∧ ((transcribeAndCorrect req tr cr (DbOutcome.fail err)).response.data.map
        ResponseData.rawTranscript) = some tr.transcript
    ∧ (transcribeAndCorrect req tr cr (DbOutcome.fail err)).createCalled = true
    ∧ (transcribeAndCorrect req tr cr (DbOutcome.fail err)).persisted = none := by
  cases hcr : cr.success <;> simp [transcribeAndCorrect, hf, hu, htr, hcr]

/-- C10 witness: a concrete run with a throwing store returns 200 with no
transcript id. -/
theorem persistence_failure_still_succeeds_witness :
    ((transcribeAndCorrect
        { file := some ⟨[0], "a.wav", "audio/wav"⟩,
          body := { prompt := none, user_id := some "7" } }
        { success := true, transcript := some "hello", duration := some 520, error := none }
        { success := true, processedText := some "Hello.", originalText := "hello",
          promptUsed := some "p", error := none }
        (DbOutcome.fail "connection refused")).response.data.map
      ResponseData.transcriptId) = some none := by
  have h := persistence_failure_still_succeeds
    { file := some ⟨[0], "a.wav", "audio/wav"⟩,
      body := { prompt := none, user_id := some "7" } }
    ⟨[0], "a.wav", "audio/wav"⟩
    { success := true, transcript := some "hello", duration := some 520, error := none }
    { success := true, processedText := some "Hello.", originalText := "hello",
      promptUsed := some "p", error := none }
    "connection refused" rfl (by decide) rfl
  exact h.2.2.1

/-- C4: replenishment is additive and idempotent: on a ledger whose expiry
date is on or before the current date, one replenish adds exactly the
tier's monthly allowance (10 for free, 1000 for premium) to the existing
balance and advances the expiry to the first day of the next calendar
month (a date strictly after today, with day 1); on an unexpired ledger
replenish changes nothing, so a second call after a successful replenish
is a no-op. -/
theorem replenish_additive_idempotent (now e : SDate) (s : SubscriptionRow)
    (hexp : s.expiry_date = some e) :
    (SDate.le e now = true →
      SubscriptionService.resetMonthlyBalance now (some s) =
        Except.ok { s with
          balance := s.balance + (if s.status = SubStatus.free then 10 else 1000),
          expiry_date := some (getNextMonthFirstDay now) })
    ∧ (SDate.le e now = false →
      SubscriptionService.resetMonthlyBalance now (some s) = Except.ok s)
    ∧ (∀ s2, SubscriptionService.resetMonthlyBalance now (some s) = Except.ok s2 →
      SubscriptionService.resetMonthlyBalance now (some s2) = Except.ok s2)
    ∧ (getNextMonthFirstDay now).day = 1
    ∧ SDate.le (getNextMonthFirstDay now) now = false := by
  refine ⟨?_, ?_, ?_, ?_, nextMonth_not_le now⟩
  · intro h
    simp [SubscriptionService.resetMonthlyBalance, hexp, h]
  · intro h
    simp [SubscriptionService.resetMonthlyBalance, hexp, h]
  · intro s2 h2
    cases hle : SDate.le e now with
    | false =>
        simp [SubscriptionService.resetMonthlyBalance, hexp, hle] at h2
        rw [← h2]
        simp [SubscriptionService.resetMonthlyBalance, hexp, hle]
    | true =>
        simp [SubscriptionService.resetMonthlyBalance, hexp, hle] at h2
        rw [← h2]
        simp [SubscriptionService.resetMonthlyBalance, nextMonth_not_le]
  · unfold getNextMonthFirstDay
    split <;> rfl

/-- C4 witness: a free ledger with balance 3 expired on 2026-10-01 (month
index 9), replenished on 2026-10-11, ends with balance 13 and expiry
2026-11-01; replenishing the result again is a no-op. -/
theorem replenish_additive_idempotent_witness :
    SubscriptionService.resetMonthlyBalance ⟨2026, 9, 11⟩
        (some ⟨1, SubStatus.free, 3, some ⟨2026, 9, 1⟩⟩) =
      Except.ok ⟨1, SubStatus.free, 13, some ⟨2026, 10, 1⟩⟩
    ∧ SubscriptionService.resetMonthlyBalance ⟨2026, 9, 11⟩
        (some ⟨1, SubStatus.free, 13, some ⟨2026, 10, 1⟩⟩) =
      Except.ok ⟨1, SubStatus.free, 13, some ⟨2026, 10, 1⟩⟩ := by
  have h := replenish_additive_idempotent ⟨2026, 9, 11⟩ ⟨2026, 9, 1⟩
    ⟨1, SubStatus.free, 3, some ⟨2026, 9, 1⟩⟩ rfl
  have h1 := h.1 (by decide)
  have hfix : SubscriptionService.resetMonthlyBalance ⟨2026, 9, 11⟩
      (some ⟨1, SubStatus.free, 3, some ⟨2026, 9, 1⟩⟩) =
      Except.ok ⟨1, SubStatus.free, 13, some ⟨2026, 10, 1⟩⟩ := by
    rw [h1]; rfl
  exact ⟨hfix, h.2.2.1 _ hfix⟩

/-- C5: every ledger mutation is a single-statement atomic update, so a
concurrent history of N debits of m minutes each against one user's row,
in whatever serialisation order the store executes them, leaves the
balance at exactly B - N*m: no debit is lost. -/
theorem concurrent_debits_no_lost_update (s : SubscriptionRow) (B : Int)
    (N : Nat) (m : Int) (ops : List LedgerOp)
    (hB : s.balance = B) (hops : ops.Perm (List.replicate N (LedgerOp.debit m))) :
    runSchedule (some s) ops = some { s with balance := B - N * m } := by
  rw [List.perm_replicate.mp hops, runSchedule_replicate_debit, hB]

/-- C5 witness: three atomic debits of 2 minutes against a starting balance
of 10 end at 10 - 3*2 = 4. -/
theorem concurrent_debits_no_lost_update_witness :
    runSchedule (some ⟨1, SubStatus.free, 10, none⟩)
        [LedgerOp.debit 2, LedgerOp.debit 2, LedgerOp.debit 2] =
      some ⟨1, SubStatus.free, 4, none⟩ := by
  have h := concurrent_debits_no_lost_update ⟨1, SubStatus.free, 10, none⟩ 10 3 2
    [LedgerOp.debit 2, LedgerOp.debit 2, LedgerOp.debit 2] rfl (List.Perm.refl _)
  rw [h]; decide

/-- C6: upgrading a user to premium adds exactly 1000 minutes to the
existing balance (not a reset to 1000), sets the tier to premium, and
advances the expiry date to the first day of the next month (day 1, the
following calendar month, strictly after today). -/
theorem upgrade_adds_premium_allowance (now : SDate) (s : SubscriptionRow)
    (hm : now.month ≤ 11) :
    SubscriptionService.upgradeToPremium now (some s) =
      Except.ok { s with status := SubStatus.premium,
                         balance := s.balance + 1000,
                         expiry_date := some (getNextMonthFirstDay now) }
    ∧ (getNextMonthFirstDay now).day = 1
    ∧ ((now.month < 11 ∧ getNextMonthFirstDay now =
          { year := now.year, month := now.month + 1, day := 1 })
       ∨ (now.month = 11 ∧ getNextMonthFirstDay now =
          { year := now.year + 1, month := 0, day := 1 }))
    ∧ SDate.le (getNextMonthFirstDay now) now = false := by
  refine ⟨rfl, ?_, ?_, nextMonth_not_le now⟩
  · unfold getNextMonthFirstDay
    split <;> rfl
  · by_cases h : now.month < 11
    · left
      refine ⟨h, ?_⟩
      unfold getNextMonthFirstDay
      rw [if_neg (by omega)]
    · right
      have h11 : now.month = 11 := by omega
      refine ⟨h11, ?_⟩
      unfold getNextMonthFirstDay
      rw [if_pos (by omega)]

/-- C6 witness: upgrading a free user with balance 4 in December 2025
(month index 11) yields balance 1004, premium tier, and expiry
2026-01-01. -/
theorem upgrade_adds_premium_allowance_witness :
    SubscriptionService.upgradeToPremium ⟨2025, 11, 15⟩
        (some ⟨7, SubStatus.free, 4, some ⟨2025, 11, 1⟩⟩) =
      Except.ok ⟨7, SubStatus.premium, 1004, some ⟨2026, 0, 1⟩⟩ := by
  have h := upgrade_adds_premium_allowance ⟨2025, 11, 15⟩
    ⟨7, SubStatus.free, 4, some ⟨2025, 11, 1⟩⟩ (by decide)
  rw [h.1]; rfl

/-- C7: the storage-layer debit unconditionally sets the balance to B - m
with no floor check, so the result is negative whenever m exceeds B; the
service-level debit fails (throws "Failed to deduct balance") exactly when
the user has no ledger row. -/
theorem debit_no_floor (s : SubscriptionRow) (m : Int) :
    Subscription.deductBalance (some s) m = some { s with balance := s.balance - m }
    ∧ SubscriptionService.deductBalance (some s) m =
        Except.ok { s with balance := s.balance - m }
    ∧ (s.balance < m →
        ({ s with balance := s.balance - m } : SubscriptionRow).balance < 0)
    ∧ SubscriptionService.deductBalance none m =
        Except.error "Failed to deduct balance" := by
  refine ⟨rfl, rfl, ?_, rfl⟩
  intro h
  simp only
  omega

/-- C7 witness: debiting 8 minutes from a balance of 5 yields -3, and the
service-level debit with no ledger row fails. -/
theorem debit_no_floor_witness :
    Subscription.deductBalance (some ⟨3, SubStatus.free, 5, none⟩) 8 =
      some ⟨3, SubStatus.free, -3, none⟩
    ∧ ((-3 : Int) < 0)
    ∧ SubscriptionService.deductBalance none 8 =
        Except.error "Failed to deduct balance" := by
  have h := debit_no_floor ⟨3, SubStatus.free, 5, none⟩ 8
  refine ⟨?_, ?_, h.2.2.2⟩
  · rw [h.1]; rfl
  · exact h.2.2.1 (by decide)

end SpeechKeyboard
